import Mathlib

/-!
Verification of `add-principles/scripts/locate.py`: a shallow embedding of
the principles-file locator, with theorems checking the natural-language
specification against the code.

Modelling conventions:
* A filesystem path (Python `pathlib.Path`) is a list of segments
  (`FsPath := List String`); `p / q` is `p ++ [q]`, `.name` is the last
  segment, `.parent` is `dropLast`, `str(path)` is the segments joined
  with "/".
* The ambient process state (environment variables, filesystem metadata,
  home directory, cwd, directory listings, file reads, symlink
  resolution) is a record of oracles `St`; strategies are pure functions
  of `St`, mirroring that the Python strategies only read ambient state.
* Operations that may raise in Python are modelled with `Option` /
  `Except`: `St.readText` returns `Except String String` (`.error e`
  models `read_text` raising an exception rendered as `e`), and
  `St.realpath` returns `Option FsPath` (`none` models `.resolve()`
  raising).
* `sys.platform == "win32"` only changes where the home directory comes
  from (`USERPROFILE` vs `Path.home()`); the oracle `St.home` stands for
  whichever applies, so both platforms share one embedding.
-/

namespace AddPrinciples

/-- Configuration constants of `locate.py`. -/
def ENV_VAR_NAME : String := "ADD_PRINCIPLES_PATH"

def CONFIG_FILE_NAME : String := "config.toml"

def DEFAULT_SKILL_NAME : String := "add-principles"

def TARGET_FILE : String := "principles.md"

/-- A filesystem path as a list of segments (embedding of `pathlib.Path`). -/
def FsPath : Type := List String

instance : BEq FsPath := inferInstanceAs (BEq (List String))

instance : DecidableEq FsPath := inferInstanceAs (DecidableEq (List String))

instance : Append FsPath := inferInstanceAs (Append (List String))

/-- `Path.name`: the final path segment (empty for the empty path). -/
def FsPath.name (p : FsPath) : String := List.getLastD p ""

/-- `Path.parent`: drop the final segment. -/
def FsPath.parent (p : FsPath) : FsPath := List.dropLast p

/-- `str(path)`: segments joined by the separator. -/
def FsPath.toStr : FsPath → String
  | [] => ""
  | [s] => s
  | s :: rest => s ++ "/" ++ FsPath.toStr rest

/-- `path / seg`: append one segment. -/
def FsPath.child (p : FsPath) (seg : String) : FsPath := List.concat p seg

/-- Filesystem metadata oracles: `exists()`, `is_file()`, `is_dir()`,
`is_symlink()` of `pathlib.Path`. -/
structure FS where
  ex : FsPath → Bool
  isFile : FsPath → Bool
  isDir : FsPath → Bool
  isSymlink : FsPath → Bool

/-- The ambient process state read by the strategies. -/
structure St where
  /-- The filesystem metadata. -/
  fs : FS
  /-- `os.environ.get("ADD_PRINCIPLES_PATH")`: `none` when unset. -/
  envVar : Option String
  /-- `Path(s).expanduser().resolve()` for a raw string `s`. -/
  resolveStr : String → FsPath
  /-- The user home directory (`Path.home()`, or `%USERPROFILE%` on Windows). -/
  home : FsPath
  /-- `path.read_text(encoding="utf-8")`; `.error e` models a raised exception. -/
  readText : FsPath → Except String String
  /-- `path.resolve()` on an existing path or symlink; `none` models a raised
  exception. -/
  realpath : FsPath → Option FsPath
  /-- `path.iterdir()`: the child entry names of a directory, in listing order. -/
  iterdir : FsPath → List String
  /-- `Path.cwd()`: the current working directory. -/
  cwd : FsPath

/-- Result of one strategy: the `(strategy_name, path | None, error | None)`
tuple returned by each `strategy_*` function. -/
structure StratResult where
  name : String
  path : Option FsPath
  err : Option String
  deriving DecidableEq

/-- One element of the `checked_paths` list built by `locate`. -/
structure CheckedEntry where
  strategy : String
  path : Option String
  found : Bool
  error : Option String
  deriving DecidableEq

/-- The dictionary returned by `locate()`. Keys absent from the Python dict
are `none` here (`path`/`found_via` on failure; `error`/`suggestion`/
`errors_detail` on success). -/
structure LocateResult where
  success : Bool
  path : Option String
  found_via : Option String
  checked_paths : List CheckedEntry
  error : Option String
  suggestion : Option String
  errors_detail : Option (List CheckedEntry)
  deriving DecidableEq

/-! ### Python string primitives

Re-implemented structurally over `List Char` so that every definition
reduces in the kernel (core `String.splitOn`/`trim`/`startsWith` use
well-founded recursion or `Substring` positions and do not). -/

/-- Auxiliary accumulator loop for `splitOnChar`. -/
def splitOnCharAux (c : Char) : List Char → List Char → List (List Char)
  | [], cur => [cur.reverse]
  | x :: xs, cur =>
    if x == c then cur.reverse :: splitOnCharAux c xs []
    else splitOnCharAux c xs (x :: cur)

/-- Python `s.split(c)` for a one-character separator `c`. -/
def splitOnChar (c : Char) (l : List Char) : List (List Char) :=
  splitOnCharAux c l []

/-- Python `s.split(c)`, at the `String` level. -/
def pySplit (s : String) (c : Char) : List String :=
  List.map String.mk (splitOnChar c s.data)

/-- The whitespace set of Python `str.strip()` with no argument. -/
def pyIsSpace (c : Char) : Bool :=
  c == ' ' || c == '\t' || c == '\n' || c == '\r' || c == Char.ofNat 11 || c == Char.ofNat 12

/-- Python `s.strip()`: remove leading and trailing whitespace. -/
def pyStrip (s : String) : String :=
  String.mk (((s.data.dropWhile pyIsSpace).reverse.dropWhile pyIsSpace).reverse)

/-- Python `s.startswith(pre)`. -/
def pyStartsWith (s pre : String) : Bool :=
  List.isPrefixOf pre.data s.data

/-- Python `c in s` for a single character `c`. -/
def pyContainsChar (s : String) (c : Char) : Bool :=
  List.elem c s.data

/-- `needle` occurs as a contiguous sublist of the second argument. -/
def containsSubL (needle : List Char) : List Char → Bool
  | [] => needle.isEmpty
  | c :: rest => List.isPrefixOf needle (c :: rest) || containsSubL needle rest

/-- Python `needle in hay` on strings: substring containment, as a Bool. -/
def containsSub (hay needle : String) : Bool :=
  containsSubL needle.data hay.data

/-- `check_principles_exists(base_path)`: return `base_path` when it is the
target file itself, else `base_path / "principles.md"` when `base_path` is a
directory containing that file, else `none`. -/
def check_principles_exists (fs : FS) (base_path : FsPath) : Option FsPath :=
  if base_path.name == TARGET_FILE && fs.isFile base_path then
    some base_path
  else if fs.isDir base_path then
    let principles_path := base_path.child TARGET_FILE
    if fs.isFile principles_path then some principles_path else none
  else
    none

/-- The double-quote character, the first argument Python strip receives in
the value-cleanup step of `parse_toml_value`. -/
def dquote : Char := Char.ofNat 34

/-- The single-quote character, the second argument Python strip receives in
the value-cleanup step of `parse_toml_value`. -/
def squote : Char := Char.ofNat 39

/-- Python `s.strip(c)` for a single character `c`: remove every leading and
trailing occurrence of `c`. -/
def stripChar (c : Char) (s : String) : String :=
  String.mk (((s.data.dropWhile (· == c)).reverse.dropWhile (· == c)).reverse)

/-- Python `line.split("=")[0]`: the text before the first `=`, or the whole
line when there is no `=`. -/
def beforeEq (line : String) : String :=
  List.headD (pySplit line '=') line

/-- Join strings with `=` separators (inverse of splitting on `=`). -/
def joinWithEq : List String → String
  | [] => ""
  | [s] => s
  | s :: rest => s ++ "=" ++ joinWithEq rest

/-- Python `line.split("=", 1)[1]`: everything after the first `=`. -/
def afterFirstEq (line : String) : String :=
  joinWithEq (List.tail (pySplit line '='))

/-- The matching test of one loop iteration of `parse_toml_value`:
`line.startswith(key) or f".{key}" in line.split("=")[0]` on the stripped
line. -/
def tomlLineMatches (key line : String) : Bool :=
  pyStartsWith line key || containsSub (beforeEq line) ("." ++ key)

/-- Value extraction of `parse_toml_value` once a line matched and contains
`=`: take `line.split("=", 1)[1]`, strip whitespace, then strip double
quotes, then strip single quotes. -/
def tomlExtract (line : String) : String :=
  stripChar squote (stripChar dquote (pyStrip (afterFirstEq line)))

/-- The loop body of `parse_toml_value` over the (already split) lines. -/
def parseTomlLoop (key : String) : List String → Option String
  | [] => none
  | l :: rest =>
    let line := pyStrip l
    if tomlLineMatches key line && pyContainsChar line '=' then
      some (tomlExtract line)
    else
      parseTomlLoop key rest

/-- `parse_toml_value(content, key)`: scan the lines of `content` for the
first one that matches `key` and contains `=`, returning its quote-stripped
value, else `none`. -/
def parse_toml_value (content key : String) : Option String :=
  parseTomlLoop key (pySplit content '\n')

/-- `strategy_env_override()`: priority 1, the `ADD_PRINCIPLES_PATH`
environment override. -/
def strategy_env_override (st : St) : StratResult :=
  match st.envVar with
  | none => ⟨"env", none, none⟩
  | some env_path =>
    -- `if not env_path`: the empty string is falsy in Python
    if env_path == "" then ⟨"env", none, none⟩
    else
      let path := st.resolveStr env_path
      if !st.fs.ex path then
        ⟨"env", none, some ("环境变量 " ++ ENV_VAR_NAME ++ " 指向的路径不存在: " ++ path.toStr)⟩
      else
        match check_principles_exists st.fs path with
        | some result => ⟨"env", some result, none⟩
        | none =>
          ⟨"env", none,
            some ("环境变量 " ++ ENV_VAR_NAME ++ " 路径下未找到 " ++ TARGET_FILE ++ ": " ++ path.toStr)⟩

/-- `~/.kimi` (or `%USERPROFILE%\.kimi`): the config home directory. -/
def configHome (st : St) : FsPath := st.home.child ".kimi"

/-- `~/.kimi/config.toml`. -/
def configPath (st : St) : FsPath := (configHome st).child CONFIG_FILE_NAME

/-- `strategy_config_file()`: priority 2, the `skills_dir` key of
`~/.kimi/config.toml`. -/
def strategy_config_file (st : St) : StratResult :=
  if !st.fs.ex (configPath st) then ⟨"config", none, none⟩
  else
    match st.readText (configPath st) with
    | .error e => ⟨"config", none, some ("读取配置文件失败: " ++ e)⟩
    | .ok content =>
      match parse_toml_value content "skills_dir" with
      | none => ⟨"config", none, none⟩
      | some skills_dir_str =>
        -- `if not skills_dir_str`: the empty string is falsy in Python
        if skills_dir_str == "" then ⟨"config", none, none⟩
        else
          let skills_dir := st.resolveStr skills_dir_str
          let skill_path := skills_dir.child DEFAULT_SKILL_NAME
          match check_principles_exists st.fs skill_path with
          | some result => ⟨"config", some result, none⟩
          | none => ⟨"config", none, some ("配置的 skills_dir 中未找到: " ++ skill_path.toStr)⟩

/-- `get_platform_default_skills_dir()`: `<home>/.kimi/skills`. -/
def get_platform_default_skills_dir (st : St) : FsPath :=
  (st.home.child ".kimi").child "skills"

/-- The conventional install path `<home>/.kimi/skills/add-principles`. -/
def defaultSkillPath (st : St) : FsPath :=
  (get_platform_default_skills_dir st).child DEFAULT_SKILL_NAME

/-- Step 2 of `strategy_default_platform_path`: if the conventional path
exists or is a symlink, resolve it to its real target and re-probe; a raised
exception (`realpath = none`) is swallowed. -/
def defaultStep2 (st : St) : Option FsPath :=
  if st.fs.ex (defaultSkillPath st) || st.fs.isSymlink (defaultSkillPath st) then
    match st.realpath (defaultSkillPath st) with
    | some real_path => check_principles_exists st.fs real_path
    | none => none
  else none

/-- One iteration of the fuzzy-match loop: probe `skills_dir / name` when the
entry is a directory or symlink and its name contains the skill name. -/
def fuzzyProbe (st : St) (skills_dir : FsPath) (nm : String) : Option FsPath :=
  let item := skills_dir.child nm
  if (st.fs.isDir item || st.fs.isSymlink item)
      && containsSub nm DEFAULT_SKILL_NAME then
    check_principles_exists st.fs item
  else none

/-- The fuzzy-match loop of `strategy_default_platform_path` over the
directory listing: first probe hit wins. -/
def fuzzyLoop (st : St) (skills_dir : FsPath) : List String → Option FsPath
  | [] => none
  | nm :: rest =>
    match fuzzyProbe st skills_dir nm with
    | some result => some result
    | none => fuzzyLoop st skills_dir rest

/-- Step 3 of `strategy_default_platform_path`: when the skills directory
exists, scan its children for a fuzzy match. -/
def defaultStep3 (st : St) : Option FsPath :=
  if st.fs.ex (get_platform_default_skills_dir st) then
    fuzzyLoop st (get_platform_default_skills_dir st)
      (st.iterdir (get_platform_default_skills_dir st))
  else none

/-- `strategy_default_platform_path()`: priority 3, the platform-default
install location, with symlink resolution and fuzzy name matching. -/
def strategy_default_platform_path (st : St) : StratResult :=
  match check_principles_exists st.fs (defaultSkillPath st) with
  | some result => ⟨"default", some result, none⟩
  | none =>
    match defaultStep2 st with
    | some result => ⟨"default", some result, none⟩
    | none =>
      match defaultStep3 st with
      | some result => ⟨"default", some result, none⟩
      | none => ⟨"default", none, some ("默认路径中未找到: " ++ (defaultSkillPath st).toStr)⟩

/-- `strategy_cwd_fallback()`: priority 4, the working-directory fallback. -/
def strategy_cwd_fallback (st : St) : StratResult :=
  let cwd := st.cwd
  let skill_path := cwd.child DEFAULT_SKILL_NAME
  match check_principles_exists st.fs skill_path with
  | some result => ⟨"cwd", some result, none⟩
  | none =>
    let direct_file := cwd.child TARGET_FILE
    if st.fs.ex direct_file then ⟨"cwd", some direct_file, none⟩
    else
      let parent := cwd.parent
      if st.fs.ex (parent.child TARGET_FILE) then ⟨"cwd", some (parent.child TARGET_FILE), none⟩
      else ⟨"cwd", none, some ("当前目录及其子目录中未找到: " ++ cwd.toStr)⟩

/-- The fixed top-level failure message of `locate()`. -/
def FIXED_ERROR_MSG : String := "无法找到 principles.md，所有查找策略均未成功"

/-- The fixed remediation suggestion of `locate()`, naming the override
environment variable. -/
def SUGGESTION_TEXT : String :=
  "请确认 add-principles Skill 已正确安装。\n"
    ++ "如需自定义原则库位置，请设置环境变量:\n"
    ++ "  export " ++ ENV_VAR_NAME ++ "=/path/to/principles.md"

/-- The `checked_paths` entry built by `locate` from one strategy result. -/
def mkEntry (r : StratResult) : CheckedEntry :=
  ⟨r.name, Option.map FsPath.toStr r.path, r.path.isSome, r.err⟩

/-- The ordered strategy list of `locate()`. -/
def strategies : List (St → StratResult) :=
  [strategy_env_override, strategy_config_file,
    strategy_default_platform_path, strategy_cwd_fallback]

/-- The strategy names, in priority order. -/
def strategyNames : List String := ["env", "config", "default", "cwd"]

/-- Python truthiness of `p.get("error")` in the `errors` filter of
`locate()`: the diagnostic is present and non-empty. -/
def entryHasError (e : CheckedEntry) : Bool :=
  Option.getD e.error "" != ""

/-- The strategy loop of `locate()`: run each strategy in order, appending
its entry to the trail; stop at the first resolved path. -/
def runStrategies (st : St) : List (St → StratResult) → List CheckedEntry → LocateResult
  | [], acc =>
    ⟨false, none, none, acc, some FIXED_ERROR_MSG, some SUGGESTION_TEXT,
      some (acc.filter entryHasError)⟩
  | f :: rest, acc =>
    let r := f st
    let acc2 := acc ++ [mkEntry r]
    match r.path with
    | some p => ⟨true, some p.toStr, some r.name, acc2, none, none, none⟩
    | none => runStrategies st rest acc2

/-- `locate()`: run the strategy chain and assemble the result dictionary. -/
def locate (st : St) : LocateResult :=
  runStrategies st strategies []

/-! ### Concrete fixture states (used by witnesses and counterexamples) -/

/-- A filesystem where nothing exists. -/
def fsAllFalse : FS := ⟨fun _ => false, fun _ => false, fun _ => false, fun _ => false⟩

/-- A state where every external dependency is absent: env var unset, no
config file, no skills directory, empty cwd. -/
def stAbsent : St where
  fs := fsAllFalse
  envVar := none
  resolveStr := fun _ => []
  home := ["home", "u"]
  readText := fun _ => .error "io"
  realpath := fun _ => none
  iterdir := fun _ => []
  cwd := ["w", "d"]

/-- The number of strategies `locate` attempts: the position of the first
strategy that yields a path (counting from 1), or 4 when none does. -/
def attemptCount (st : St) : Nat :=
  if (strategy_env_override st).path.isSome then 1
  else if (strategy_config_file st).path.isSome then 2
  else if (strategy_default_platform_path st).path.isSome then 3
  else 4

/-- The parser as the specification claim literally words it: the value is
extracted from the first line whose stripped text starts with the key (or
whose text before the first `=` contains `.` followed by the key),
regardless of whether that line contains `=`. Stated from the words of the
claim, for comparison with `parse_toml_value`. -/
def parseTomlClaimed (content key : String) : Option String :=
  Option.map (fun l => tomlExtract (pyStrip l))
    (List.find? (fun l => tomlLineMatches key (pyStrip l)) (pySplit content '\n'))

/-- The amended description of the parser: the value comes from the first
line that both matches the key test and contains `=`. -/
def parseTomlAmended (content key : String) : Option String :=
  Option.map (fun l => tomlExtract (pyStrip l))
    (List.find?
      (fun l => tomlLineMatches key (pyStrip l) && pyContainsChar (pyStrip l) '=')
      (pySplit content '\n'))

/-- A state where the env override names the target file directly. -/
def stEnv : St where
  fs :=
    { ex := fun p => p == ["", "p", "principles.md"]
      isFile := fun p => p == ["", "p", "principles.md"]
      isDir := fun _ => false
      isSymlink := fun _ => false }
  envVar := some "/p/principles.md"
  resolveStr := fun _ => ["", "p", "principles.md"]
  home := ["home", "u"]
  readText := fun _ => .error "io"
  realpath := fun _ => none
  iterdir := fun _ => []
  cwd := ["w", "d"]

/-- A state where `<cwd>/principles.md` exists on disk but is not a regular
file (e.g. it is a directory). -/
def stCwdDir : St where
  fs :=
    { ex := fun p => p == ["", "w", "principles.md"]
      isFile := fun _ => false
      isDir := fun _ => false
      isSymlink := fun _ => false }
  envVar := none
  resolveStr := fun _ => []
  home := ["home", "u"]
  readText := fun _ => .error "io"
  realpath := fun _ => none
  iterdir := fun _ => []
  cwd := ["", "w"]

/-- A state where only a fuzzy-named install
`~/.kimi/skills/add-principles-kimi` holds the target document, listed after
an unrelated entry `x`. -/
def stFuzzy : St where
  fs :=
    { ex := fun p => p == ["h", ".kimi", "skills"]
      isFile := fun p => p == ["h", ".kimi", "skills", "add-principles-kimi", "principles.md"]
      isDir := fun p => p == ["h", ".kimi", "skills", "add-principles-kimi"]
      isSymlink := fun _ => false }
  envVar := none
  resolveStr := fun _ => []
  home := ["h"]
  readText := fun _ => .error "io"
  realpath := fun _ => none
  iterdir := fun p => if p == ["h", ".kimi", "skills"] then ["x", "add-principles-kimi"] else []
  cwd := ["w"]

/-- A state with a config file that lacks the `skills_dir` key. -/
def stConfigInert : St where
  fs :=
    { ex := fun p => p == ["home", "u", ".kimi", "config.toml"]
      isFile := fun _ => false
      isDir := fun _ => false
      isSymlink := fun _ => false }
  envVar := none
  resolveStr := fun _ => []
  home := ["home", "u"]
  readText := fun _ => .ok "x = 1"
  realpath := fun _ => none
  iterdir := fun _ => []
  cwd := ["w", "d"]

/-- A state whose config file exists but raises on read. -/
def stConfigErr : St where
  fs :=
    { ex := fun p => p == ["home", "u", ".kimi", "config.toml"]
      isFile := fun _ => false
      isDir := fun _ => false
      isSymlink := fun _ => false }
  envVar := none
  resolveStr := fun _ => []
  home := ["home", "u"]
  readText := fun _ => .error "boom"
  realpath := fun _ => none
  iterdir := fun _ => []
  cwd := ["w", "d"]

/-- `stAbsent` with the override variable set to the empty string. -/
def stEmptyEnv : St := { stAbsent with envVar := some "" }

end AddPrinciples

namespace AddPrinciples

/-- Sanity check of the parser embedding: a simple assignment line, a
strict-extension key occurring first, a dotted-section key, and an absent
key. -/
theorem parse_toml_value_sanity :
    parse_toml_value "skills_dir = \"/x\"" "skills_dir" = some "/x"
      ∧ parse_toml_value "skills_dir_backup = \"X\"\nskills_dir = \"Y\"" "skills_dir" = some "X"
      ∧ parse_toml_value "[a]\nsec.skills_dir = 1" "skills_dir" = some "1"
      ∧ parse_toml_value "x = 1" "skills_dir" = none := by
  decide

/-- C4: the Probe returns the candidate itself exactly when its final
segment is `principles.md` and it is a regular file; otherwise the composed
child `<candidate>/principles.md` exactly when the candidate is a directory
and the composed path is a regular file; otherwise no match. The function is
total into `Option` (it cannot raise and has no error channel), so absence
is never reported as an error. -/
theorem C4_probe_spec (fs : FS) (base : FsPath) :
    check_principles_exists fs base =
      if base.name = TARGET_FILE ∧ fs.isFile base = true then some base
      else if fs.isDir base = true ∧ fs.isFile (base.child TARGET_FILE) = true then
        some (base.child TARGET_FILE)
      else none := by
  unfold check_principles_exists
  by_cases h1 : base.name = TARGET_FILE <;>
    by_cases h2 : fs.isFile base = true <;>
      by_cases h3 : fs.isDir base = true <;>
        by_cases h4 : fs.isFile (base.child TARGET_FILE) = true <;>
          simp_all

/-- C10 counterexample: on the content `skills_dir\nskills_dir = "Y"` the
first line matching the key test is `skills_dir`, which has no `=`; the
claim predicts its (empty) value, but the code skips it and answers `"Y"`
from the second line, so the code does not return the value of the first
matching line. -/
theorem C10_counterexample :
    parse_toml_value "skills_dir\nskills_dir = \"Y\"" "skills_dir" = some "Y"
      ∧ parseTomlClaimed "skills_dir\nskills_dir = \"Y\"" "skills_dir" = some ""
      ∧ parse_toml_value "skills_dir\nskills_dir = \"Y\"" "skills_dir"
          ≠ parseTomlClaimed "skills_dir\nskills_dir = \"Y\"" "skills_dir" := by
  decide

theorem parseTomlLoop_eq_find (key : String) :
    ∀ lines : List String,
      parseTomlLoop key lines
        = Option.map (fun l => tomlExtract (pyStrip l))
            (List.find?
              (fun l => tomlLineMatches key (pyStrip l) && pyContainsChar (pyStrip l) '=')
              lines)
  | [] => rfl
  | l :: rest => by
    cases h : (tomlLineMatches key (pyStrip l) && pyContainsChar (pyStrip l) '=') with
    | true => simp [parseTomlLoop, List.find?, h]
    | false => simp [parseTomlLoop, List.find?, h, parseTomlLoop_eq_find key rest]

/-- C10 amended: `parse_toml_value` matches by prefix (or dotted-suffix
before `=`), not by exact key, and returns the quote-stripped text after the
first `=` of the first line that contains `=` and satisfies that test
(lines matching the test but lacking `=` are skipped); it returns `none`
exactly when no line both matches and contains `=`. -/
theorem C10_parse_by_prefix (content key : String) :
    parse_toml_value content key = parseTomlAmended content key := by
  unfold parse_toml_value parseTomlAmended
  exact parseTomlLoop_eq_find key (pySplit content '\n')

/-- C9: an override variable set to the empty string behaves exactly like an
unset one: the env strategy declines with no path and no diagnostic, and its
result coincides with the result in any state where the variable is unset —
in particular it is independent of the entire filesystem. -/
theorem C9_empty_env_inert (st st2 : St) (h : st.envVar = some "") (h2 : st2.envVar = none) :
    strategy_env_override st = ⟨"env", none, none⟩
      ∧ strategy_env_override st = strategy_env_override st2 := by
  constructor
  · simp [strategy_env_override, h]
  · simp [strategy_env_override, h, h2]

/-- C9 witness: the concrete empty-string state versus the all-absent state. -/
theorem C9_empty_env_inert_witness :
    strategy_env_override stEmptyEnv = ⟨"env", none, none⟩
      ∧ strategy_env_override stEmptyEnv = strategy_env_override stAbsent :=
  C9_empty_env_inert stEmptyEnv stAbsent rfl rfl

/-- C2 amended: absence of the depended-on state yields `found=false`,
`error=null` for the env strategy (variable unset) and the config strategy
(config file missing); the default and cwd strategies, however, always
attach a non-null diagnostic whenever they yield no path — including when
the state they depend on is merely absent. -/
theorem C2_absence_behaviour (st : St) :
    (st.envVar = none → strategy_env_override st = ⟨"env", none, none⟩)
      ∧ (st.fs.ex (configPath st) = false → strategy_config_file st = ⟨"config", none, none⟩)
      ∧ ((strategy_default_platform_path st).path = none →
          (strategy_default_platform_path st).err
            = some ("默认路径中未找到: " ++ (defaultSkillPath st).toStr))
      ∧ ((strategy_cwd_fallback st).path = none →
          (strategy_cwd_fallback st).err
            = some ("当前目录及其子目录中未找到: " ++ st.cwd.toStr)) := by
  refine ⟨fun h => ?_, fun h => ?_, fun h => ?_, fun h => ?_⟩
  · simp [strategy_env_override, h]
  · simp [strategy_config_file, h]
  · unfold strategy_default_platform_path at h ⊢
    rcases h1 : check_principles_exists st.fs (defaultSkillPath st) with _ | r <;>
      simp [h1] at h ⊢
    rcases h2 : defaultStep2 st with _ | r <;> simp [h2] at h ⊢
    rcases h3 : defaultStep3 st with _ | r <;> simp [h3] at h ⊢
  · unfold strategy_cwd_fallback at h ⊢
    rcases h1 : check_principles_exists st.fs (st.cwd.child DEFAULT_SKILL_NAME) with _ | r <;>
      simp [h1] at h ⊢
    cases h2 : st.fs.ex (st.cwd.child TARGET_FILE) <;> simp [h2] at h ⊢
    cases h3 : st.fs.ex (st.cwd.parent.child TARGET_FILE) <;> simp [h3] at h ⊢

/-- C2 witness: in the all-absent state the env and config strategies are
silently inert. -/
theorem C2_absence_behaviour_witness :
    strategy_env_override stAbsent = ⟨"env", none, none⟩
      ∧ strategy_config_file stAbsent = ⟨"config", none, none⟩ :=
  ⟨(C2_absence_behaviour stAbsent).1 rfl, (C2_absence_behaviour stAbsent).2.1 rfl⟩

/-- C2 counterexample: in a state where the platform-convention skill
directory is entirely absent (nothing exists on the filesystem at all) the
default strategy still contributes a diagnostic, and so does the cwd
strategy, contradicting `found=false, error=null` for mere absence. -/
theorem C2_counterexample :
    (stAbsent.fs.ex (get_platform_default_skills_dir stAbsent) = false
        ∧ stAbsent.fs.ex (defaultSkillPath stAbsent) = false
        ∧ stAbsent.fs.isDir (defaultSkillPath stAbsent) = false
        ∧ stAbsent.fs.isFile (defaultSkillPath stAbsent) = false
        ∧ stAbsent.fs.isSymlink (defaultSkillPath stAbsent) = false)
      ∧ (strategy_default_platform_path stAbsent).path = none
      ∧ (strategy_default_platform_path stAbsent).err
          = some "默认路径中未找到: home/u/.kimi/skills/add-principles"
      ∧ (strategy_cwd_fallback stAbsent).path = none
      ∧ (strategy_cwd_fallback stAbsent).err
          = some "当前目录及其子目录中未找到: w/d" := by
  decide

/-- C7 counterexample: with `<cwd>/principles.md` present on disk but not a
regular file (attempt (a) failing), the cwd strategy still returns it as a
hit — attempt (b) tests bare existence, not regular-file-ness as the claim
states. -/
theorem C7_counterexample :
    check_principles_exists stCwdDir.fs (stCwdDir.cwd.child DEFAULT_SKILL_NAME) = none
      ∧ stCwdDir.fs.ex (stCwdDir.cwd.child TARGET_FILE) = true
      ∧ stCwdDir.fs.isFile (stCwdDir.cwd.child TARGET_FILE) = false
      ∧ (strategy_cwd_fallback stCwdDir).path = some (stCwdDir.cwd.child TARGET_FILE) := by
  decide

/-- C7 amended: the working-directory fallback makes exactly three attempts
in order — (a) Probe on `<cwd>/add-principles`, (b) `<cwd>/principles.md`,
(c) `<parent>/principles.md` — and the first hit wins; attempts (b) and (c)
test only that the path exists on disk (any file type, not necessarily a
regular file); if all three fail, the diagnostic names the cwd. -/
theorem C7_cwd_fallback_spec (st : St) :
    (∀ r, check_principles_exists st.fs (st.cwd.child DEFAULT_SKILL_NAME) = some r →
        strategy_cwd_fallback st = ⟨"cwd", some r, none⟩)
      ∧ (check_principles_exists st.fs (st.cwd.child DEFAULT_SKILL_NAME) = none →
          st.fs.ex (st.cwd.child TARGET_FILE) = true →
          strategy_cwd_fallback st = ⟨"cwd", some (st.cwd.child TARGET_FILE), none⟩)
      ∧ (check_principles_exists st.fs (st.cwd.child DEFAULT_SKILL_NAME) = none →
          st.fs.ex (st.cwd.child TARGET_FILE) = false →
          st.fs.ex (st.cwd.parent.child TARGET_FILE) = true →
          strategy_cwd_fallback st = ⟨"cwd", some (st.cwd.parent.child TARGET_FILE), none⟩)
      ∧ (check_principles_exists st.fs (st.cwd.child DEFAULT_SKILL_NAME) = none →
          st.fs.ex (st.cwd.child TARGET_FILE) = false →
          st.fs.ex (st.cwd.parent.child TARGET_FILE) = false →
          strategy_cwd_fallback st
            = ⟨"cwd", none, some ("当前目录及其子目录中未找到: " ++ st.cwd.toStr)⟩) := by
  refine ⟨fun r h1 => ?_, fun h1 h2 => ?_, fun h1 h2 h3 => ?_, fun h1 h2 h3 => ?_⟩
  · simp [strategy_cwd_fallback, h1]
  · simp [strategy_cwd_fallback, h1, h2]
  · simp [strategy_cwd_fallback, h1, h2, h3]
  · simp [strategy_cwd_fallback, h1, h2, h3]

/-- C7 witness: the amended behaviour at concrete states — attempt (b)
firing on a bare-existence hit, and the all-fail diagnostic naming cwd. -/
theorem C7_cwd_fallback_spec_witness :
    strategy_cwd_fallback stCwdDir = ⟨"cwd", some (stCwdDir.cwd.child TARGET_FILE), none⟩
      ∧ strategy_cwd_fallback stAbsent
          = ⟨"cwd", none, some ("当前目录及其子目录中未找到: " ++ stAbsent.cwd.toStr)⟩ :=
  ⟨(C7_cwd_fallback_spec stCwdDir).2.1 (by decide) (by decide),
    (C7_cwd_fallback_spec stAbsent).2.2.2 (by decide) (by decide) (by decide)⟩

/-- C8: with the config file present, an absent (or unextractable)
`skills_dir` key leaves the config strategy silently inert — no path and no
diagnostic; and a read/parse exception (modelled by `readText` returning
`.error e`) is converted into the fixed diagnostic string inside the
strategy, never propagating (the strategy is a total function into
`StratResult`). -/
theorem C8_config_error_handling (st : St) (content e : String) :
    (st.fs.ex (configPath st) = true → st.readText (configPath st) = .ok content →
        parse_toml_value content "skills_dir" = none →
        strategy_config_file st = ⟨"config", none, none⟩)
      ∧ (st.fs.ex (configPath st) = true → st.readText (configPath st) = .error e →
          strategy_config_file st = ⟨"config", none, some ("读取配置文件失败: " ++ e)⟩) := by
  refine ⟨fun h1 h2 h3 => ?_, fun h1 h2 => ?_⟩
  · simp [strategy_config_file, h1, h2, h3]
  · simp [strategy_config_file, h1, h2]

/-- C8 witness: a config file without the key is inert; a config file whose
read raises yields the converted diagnostic. -/
theorem C8_config_error_handling_witness :
    strategy_config_file stConfigInert = ⟨"config", none, none⟩
      ∧ strategy_config_file stConfigErr
          = ⟨"config", none, some ("读取配置文件失败: " ++ "boom")⟩ :=
  ⟨(C8_config_error_handling stConfigInert "x = 1" "e").1 (by decide) rfl (by decide),
    (C8_config_error_handling stConfigErr "c" "boom").2 (by decide) rfl⟩

/-- C3: when `ADD_PRINCIPLES_PATH` is set to a non-empty string whose
expanded, resolved path exists and names `principles.md` directly as a
regular file, `locate` succeeds via the env strategy with exactly one
`checked_paths` entry and no later strategy appearing. -/
theorem C3_env_override_success (st : St) (s : String)
    (hset : st.envVar = some s) (hne : s ≠ "")
    (hex : st.fs.ex (st.resolveStr s) = true)
    (hname : (st.resolveStr s).name = TARGET_FILE)
    (hfile : st.fs.isFile (st.resolveStr s) = true) :
    locate st =
      ⟨true, some (st.resolveStr s).toStr, some "env",
        [⟨"env", some (st.resolveStr s).toStr, true, none⟩], none, none, none⟩ := by
  have henv : strategy_env_override st = ⟨"env", some (st.resolveStr s), none⟩ := by
    simp [strategy_env_override, hset, hne, hex, check_principles_exists, hname, hfile]
  simp [locate, strategies, runStrategies, henv, mkEntry]

/-- C3 witness: the concrete state whose override names the target file. -/
theorem C3_env_override_success_witness :
    locate stEnv =
      ⟨true, some (stEnv.resolveStr "/p/principles.md").toStr, some "env",
        [⟨"env", some (stEnv.resolveStr "/p/principles.md").toStr, true, none⟩],
        none, none, none⟩ :=
  C3_env_override_success stEnv "/p/principles.md" rfl (by decide) (by decide) (by decide)
    (by decide)

theorem strategy_env_override_name (st : St) : (strategy_env_override st).name = "env" := by
  unfold strategy_env_override
  rcases st.envVar with _ | s
  · rfl
  · dsimp only
    split
    · rfl
    · split
      · rfl
      · split <;> rfl

theorem strategy_config_file_name (st : St) : (strategy_config_file st).name = "config" := by
  unfold strategy_config_file
  split
  · rfl
  · split
    · rfl
    · split
      · rfl
      · split
        · rfl
        · dsimp only
          split <;> rfl

theorem strategy_default_platform_path_name (st : St) :
    (strategy_default_platform_path st).name = "default" := by
  unfold strategy_default_platform_path
  split
  · rfl
  · split
    · rfl
    · split <;> rfl

theorem strategy_cwd_fallback_name (st : St) : (strategy_cwd_fallback st).name = "cwd" := by
  unfold strategy_cwd_fallback
  dsimp only
  split
  · rfl
  · split
    · rfl
    · split <;> rfl

theorem fuzzyLoop_first_match (st : St) (dir : FsPath) (nm : String) (r : FsPath) :
    ∀ pre post, (∀ n ∈ pre, fuzzyProbe st dir n = none) →
      fuzzyProbe st dir nm = some r →
      fuzzyLoop st dir (pre ++ nm :: post) = some r
  | [], _, _, hm => by simp [fuzzyLoop, hm]
  | p :: pre, post, hpre, hm => by
    have hp : fuzzyProbe st dir p = none := hpre p (by simp)
    simp only [List.cons_append, fuzzyLoop, hp]
    exact fuzzyLoop_first_match st dir nm r pre post (fun n hn => hpre n (by simp [hn])) hm

/-- C6: when the direct conventional-path probe and the symlink-resolution
step both yield no match, but the skills directory exists and its listing
holds an entry (directory or symlink) whose name contains
`add-principles` as a substring and which contains the target document —
with no earlier listed entry producing a fuzzy hit — the default strategy
succeeds with the probed path of that entry, and (the earlier strategies
declining) the overall result reports `found_via = "default"`. -/
theorem C6_fuzzy_default_match (st : St) (pre post : List String) (nm : String) (r : FsPath)
    (he : (strategy_env_override st).path = none)
    (hc : (strategy_config_file st).path = none)
    (h1 : check_principles_exists st.fs (defaultSkillPath st) = none)
    (h2 : defaultStep2 st = none)
    (hex : st.fs.ex (get_platform_default_skills_dir st) = true)
    (hlist : st.iterdir (get_platform_default_skills_dir st) = pre ++ nm :: post)
    (hpre : ∀ n ∈ pre, fuzzyProbe st (get_platform_default_skills_dir st) n = none)
    (hitem : st.fs.isDir ((get_platform_default_skills_dir st).child nm) = true
        ∨ st.fs.isSymlink ((get_platform_default_skills_dir st).child nm) = true)
    (hsub : containsSub nm DEFAULT_SKILL_NAME = true)
    (hprobe :
      check_principles_exists st.fs ((get_platform_default_skills_dir st).child nm) = some r) :
    strategy_default_platform_path st = ⟨"default", some r, none⟩
      ∧ (locate st).success = true
      ∧ (locate st).found_via = some "default"
      ∧ (locate st).path = some r.toStr := by
  have hfp : fuzzyProbe st (get_platform_default_skills_dir st) nm = some r := by
    rcases hitem with h | h <;> simp [fuzzyProbe, h, hsub, hprobe]
  have h3 : defaultStep3 st = some r := by
    rw [defaultStep3, if_pos hex, hlist]
    exact fuzzyLoop_first_match st _ nm r pre post hpre hfp
  have hd : strategy_default_platform_path st = ⟨"default", some r, none⟩ := by
    simp [strategy_default_platform_path, h1, h2, h3]
  refine ⟨hd, ?_, ?_, ?_⟩ <;> simp [locate, strategies, runStrategies, he, hc, hd]

/-- C6 witness: a fuzzy-named install `add-principles-kimi`, listed after an
unrelated entry, wins the default strategy and the run. -/
theorem C6_fuzzy_default_match_witness :
    strategy_default_platform_path stFuzzy
        = ⟨"default", some ["h", ".kimi", "skills", "add-principles-kimi", "principles.md"], none⟩
      ∧ (locate stFuzzy).success = true
      ∧ (locate stFuzzy).found_via = some "default"
      ∧ (locate stFuzzy).path
          = some (FsPath.toStr ["h", ".kimi", "skills", "add-principles-kimi", "principles.md"]) :=
  C6_fuzzy_default_match stFuzzy ["x"] [] "add-principles-kimi"
    ["h", ".kimi", "skills", "add-principles-kimi", "principles.md"]
    (by decide) (by decide) (by decide) (by decide) (by decide) (by decide) (by decide)
    (by decide) (by decide) (by decide)

/-- C1: the `checked_paths` trail is exactly the entry list of the first
`attemptCount` strategies — the strategies attempted up to and including the
first one that yields a path — so its strategy names are the corresponding
prefix of the fixed ordered list (env, config, default, cwd) with no
reordering or deduplication, later strategies never appear after a success,
and when no strategy yields a path the trail holds all four. -/
theorem C1_checked_paths_invariant (st : St) :
    (locate st).checked_paths
        = List.map (fun f => mkEntry (f st)) (List.take (attemptCount st) strategies)
      ∧ List.map CheckedEntry.strategy (locate st).checked_paths
          = List.take (attemptCount st) strategyNames
      ∧ ((locate st).success = false → (locate st).checked_paths.length = 4) := by
  rcases h1 : (strategy_env_override st).path with _ | p1
  case some =>
    refine ⟨?_, ?_, ?_⟩ <;>
      simp [locate, strategies, runStrategies, attemptCount, strategyNames, h1, mkEntry,
        strategy_env_override_name]
  case none =>
  rcases h2 : (strategy_config_file st).path with _ | p2
  case some =>
    refine ⟨?_, ?_, ?_⟩ <;>
      simp [locate, strategies, runStrategies, attemptCount, strategyNames, h1, h2, mkEntry,
        strategy_env_override_name, strategy_config_file_name]
  case none =>
  rcases h3 : (strategy_default_platform_path st).path with _ | p3
  case some =>
    refine ⟨?_, ?_, ?_⟩ <;>
      simp [locate, strategies, runStrategies, attemptCount, strategyNames, h1, h2, h3, mkEntry,
        strategy_env_override_name, strategy_config_file_name,
        strategy_default_platform_path_name]
  case none =>
  rcases h4 : (strategy_cwd_fallback st).path with _ | p4 <;>
    refine ⟨?_, ?_, ?_⟩ <;>
      simp [locate, strategies, runStrategies, attemptCount, strategyNames, h1, h2, h3, h4,
        mkEntry, strategy_env_override_name, strategy_config_file_name,
        strategy_default_platform_path_name, strategy_cwd_fallback_name]

/-- C1 witness: in the all-absent state no strategy succeeds and the trail
holds all four strategies. -/
theorem C1_checked_paths_invariant_witness :
    (locate stAbsent).checked_paths.length = 4 :=
  (C1_checked_paths_invariant stAbsent).2.2 (by decide)

/-- C5: when every strategy declines, the result is the failure payload:
`success=false`, the fixed top-level error message, a four-entry trail in
strategy order, the fixed suggestion text (which names the override
environment variable `ADD_PRINCIPLES_PATH`), and `errors_detail` equal to
exactly the subset of `checked_paths` entries carrying a non-empty
diagnostic, in original order. -/
theorem C5_failure_payload (st : St)
    (h1 : (strategy_env_override st).path = none)
    (h2 : (strategy_config_file st).path = none)
    (h3 : (strategy_default_platform_path st).path = none)
    (h4 : (strategy_cwd_fallback st).path = none) :
    (locate st).success = false
      ∧ (locate st).error = some FIXED_ERROR_MSG
      ∧ List.map CheckedEntry.strategy (locate st).checked_paths = strategyNames
      ∧ (locate st).checked_paths.length = 4
      ∧ (locate st).suggestion = some SUGGESTION_TEXT
      ∧ containsSub SUGGESTION_TEXT ENV_VAR_NAME = true
      ∧ (locate st).errors_detail
          = some (List.filter entryHasError (locate st).checked_paths) := by
  have hl : locate st =
      ⟨false, none, none,
        [mkEntry (strategy_env_override st), mkEntry (strategy_config_file st),
          mkEntry (strategy_default_platform_path st), mkEntry (strategy_cwd_fallback st)],
        some FIXED_ERROR_MSG, some SUGGESTION_TEXT,
        some (List.filter entryHasError
          [mkEntry (strategy_env_override st), mkEntry (strategy_config_file st),
            mkEntry (strategy_default_platform_path st), mkEntry (strategy_cwd_fallback st)])⟩ := by
    simp [locate, strategies, runStrategies, h1, h2, h3, h4]
  rw [hl]
  refine ⟨rfl, rfl, ?_, rfl, rfl, by decide, rfl⟩
  simp [mkEntry, strategyNames, strategy_env_override_name, strategy_config_file_name,
    strategy_default_platform_path_name, strategy_cwd_fallback_name]

/-- C5 witness: the all-absent state yields the full failure payload. -/
theorem C5_failure_payload_witness :
    (locate stAbsent).success = false
      ∧ (locate stAbsent).error = some FIXED_ERROR_MSG
      ∧ List.map CheckedEntry.strategy (locate stAbsent).checked_paths = strategyNames
      ∧ (locate stAbsent).checked_paths.length = 4
      ∧ (locate stAbsent).suggestion = some SUGGESTION_TEXT
      ∧ containsSub SUGGESTION_TEXT ENV_VAR_NAME = true
      ∧ (locate stAbsent).errors_detail
          = some (List.filter entryHasError (locate stAbsent).checked_paths) :=
  C5_failure_payload stAbsent (by decide) (by decide) (by decide) (by decide)

end AddPrinciples
